import Mathlib

/-!
Verification of the christmas-tree animation components.

This file gives a shallow embedding, over the real numbers, of the two
components of the repository:

* `Foliage` (src/unnamed/part_000): generation of the chaos / target point
  clouds and the per-frame smoothed progress update;
* `Ornaments` (src/components/Ornaments.tsx): generation of the per-instance
  data and the per-frame instanced-mesh transform update.

Modelling conventions:

* JavaScript numbers are modelled as `ℝ`; `Math.sin`, `Math.cos`,
  `Math.sqrt`, `Math.acos`, `Math.pow`, `Math.cbrt` become the corresponding
  real functions.
* Each `Math.random()` draw is an arbitrary real supplied through an input
  stream; theorems that need it assume each draw lies in `[0, 1)`, which is
  the contract of `Math.random()`.  Because the ornament generator skips some
  draws depending on the instance category, draws are indexed per instance
  and per role rather than by global call order; the values remain arbitrary,
  so no generality is lost.
* A three.js `Object3D` transform is modelled by an explicit
  (position, rotation, scale) state (`Transform` below).  The per-frame code
  reads the instance matrix, decomposes it into exactly these components,
  mutates them, and recomposes; for the positive scales the code always
  writes, compose-then-decompose is the identity, so the matrix itself is
  not modelled.  The rotation is kept as the XYZ Euler angles that
  `Object3D.rotation` exposes; `Object3D.lookAt` is modelled by the basis
  three.js builds in `Matrix4.lookAt` followed by the XYZ Euler extraction
  of `Euler.setFromRotationMatrix`.
-/

namespace ChristmasTree

open Real

/-- A 3-component vector, modelling the components of a `THREE.Vector3`
(and also reused for Euler angle triples and RGB colors). -/
@[ext]
structure V3 where
  x : ℝ
  y : ℝ
  z : ℝ

/-- `THREE.MathUtils.lerp(x, y, t) = (1 - t) * x + t * y` (no clamping). -/
def lerp (x y t : ℝ) : ℝ := (1 - t) * x + t * y

/-- `THREE.Vector3.lerp(v, alpha)`: each component moves by
`(v - this) * alpha` (no clamping). -/
def lerpV3 (p v : V3) (alpha : ℝ) : V3 :=
  ⟨p.x + (v.x - p.x) * alpha, p.y + (v.y - p.y) * alpha, p.z + (v.z - p.z) * alpha⟩

/-- `THREE.Vector3.distanceTo`: Euclidean distance. -/
noncomputable def distanceTo (a b : V3) : ℝ :=
  Real.sqrt ((a.x - b.x) ^ 2 + (a.y - b.y) ^ 2 + (a.z - b.z) ^ 2)

/-- The three ornament categories of `Ornaments.tsx`. -/
inductive OrnamentType where
  | ball
  | gift
  | light
deriving DecidableEq

/-- Category selection from one uniform draw, transcribed from
`Ornaments.tsx` lines 47-50:
`let type = 'ball'; if (rnd > 0.8) type = 'gift'; if (rnd > 0.9) type = 'light';`. -/
noncomputable def ornamentTypeOf (rnd : ℝ) : OrnamentType :=
  let t0 : OrnamentType := .ball
  let t1 : OrnamentType := if rnd > 0.8 then .gift else t0
  if rnd > 0.9 then .light else t1

theorem ornamentTypeOf_eq_ball_iff (r : ℝ) : ornamentTypeOf r = .ball ↔ r ≤ 0.8 := by
  unfold ornamentTypeOf
  split_ifs with h1 h2 <;> simp_all <;> linarith

theorem ornamentTypeOf_eq_gift_iff (r : ℝ) :
    ornamentTypeOf r = .gift ↔ 0.8 < r ∧ r ≤ 0.9 := by
  unfold ornamentTypeOf
  split_ifs with h1 h2 <;> simp_all <;> constructor <;> intro h <;> linarith

theorem ornamentTypeOf_eq_light_iff (r : ℝ) : ornamentTypeOf r = .light ↔ 0.9 < r := by
  unfold ornamentTypeOf
  split_ifs with h1 h2 <;> simp_all <;> linarith

/-- C6: each ornament category is decided by a single uniform draw against the
fixed thresholds 0.8 and 0.9: a draw `≤ 0.8` yields a ball, a draw in
`(0.8, 0.9]` yields a gift, and a draw `> 0.9` yields a light; consequently
the subsets of `[0, 1)` mapped to ball / gift / light have Lebesgue measure
`0.8 / 0.1 / 0.1`, so over a large instance count the category split
approximates 80/10/10. -/
theorem c6_category_thresholds :
    (∀ r : ℝ, (r ≤ 0.8 → ornamentTypeOf r = .ball)
      ∧ (0.8 < r → r ≤ 0.9 → ornamentTypeOf r = .gift)
      ∧ (0.9 < r → ornamentTypeOf r = .light))
    ∧ MeasureTheory.volume {r : ℝ | ornamentTypeOf r = .ball ∧ r ∈ Set.Ico (0:ℝ) 1}
        = ENNReal.ofReal 0.8
    ∧ MeasureTheory.volume {r : ℝ | ornamentTypeOf r = .gift ∧ r ∈ Set.Ico (0:ℝ) 1}
        = ENNReal.ofReal 0.1
    ∧ MeasureTheory.volume {r : ℝ | ornamentTypeOf r = .light ∧ r ∈ Set.Ico (0:ℝ) 1}
        = ENNReal.ofReal 0.1 := by
  refine ⟨fun r => ⟨fun h => (ornamentTypeOf_eq_ball_iff r).mpr h,
      fun h1 h2 => (ornamentTypeOf_eq_gift_iff r).mpr ⟨h1, h2⟩,
      fun h => (ornamentTypeOf_eq_light_iff r).mpr h⟩, ?_, ?_, ?_⟩
  · have hset : {r : ℝ | ornamentTypeOf r = .ball ∧ r ∈ Set.Ico (0:ℝ) 1}
        = Set.Icc (0:ℝ) 0.8 := by
      ext r
      simp only [Set.mem_setOf_eq, Set.mem_Ico, Set.mem_Icc, ornamentTypeOf_eq_ball_iff]
      constructor
      · rintro ⟨h1, h2, h3⟩; exact ⟨h2, h1⟩
      · rintro ⟨h1, h2⟩; exact ⟨h2, h1, by linarith⟩
    rw [hset, Real.volume_Icc]
    norm_num
  · have hset : {r : ℝ | ornamentTypeOf r = .gift ∧ r ∈ Set.Ico (0:ℝ) 1}
        = Set.Ioc (0.8:ℝ) 0.9 := by
      ext r
      simp only [Set.mem_setOf_eq, Set.mem_Ico, Set.mem_Ioc, ornamentTypeOf_eq_gift_iff]
      constructor
      · rintro ⟨⟨h1, h2⟩, _, _⟩; exact ⟨h1, h2⟩
      · rintro ⟨h1, h2⟩; exact ⟨⟨h1, h2⟩, by linarith, by linarith⟩
    rw [hset, Real.volume_Ioc]
    norm_num
  · have hset : {r : ℝ | ornamentTypeOf r = .light ∧ r ∈ Set.Ico (0:ℝ) 1}
        = Set.Ioo (0.9:ℝ) 1 := by
      ext r
      simp only [Set.mem_setOf_eq, Set.mem_Ico, Set.mem_Ioo, ornamentTypeOf_eq_light_iff]
      constructor
      · rintro ⟨h1, _, h3⟩; exact ⟨h1, h3⟩
      · rintro ⟨h1, h2⟩; exact ⟨h1, by linarith, h2⟩
    rw [hset, Real.volume_Ioo]
    norm_num

/-- Witness for C6 at concrete draws 0.5, 0.85 and 0.95. -/
theorem c6_category_thresholds_witness :
    ornamentTypeOf 0.5 = .ball ∧ ornamentTypeOf 0.85 = .gift
      ∧ ornamentTypeOf 0.95 = .light :=
  ⟨(c6_category_thresholds.1 0.5).1 (by norm_num),
   (c6_category_thresholds.1 0.85).2.1 (by norm_num) (by norm_num),
   (c6_category_thresholds.1 0.95).2.2 (by norm_num)⟩

/-- `const goldenRatio = (1 + Math.sqrt(5)) / 2` from the foliage generator. -/
noncomputable def goldenRatio : ℝ := (1 + Real.sqrt 5) / 2

/-- The i-th foliage target position, transcribed from
src/unnamed/part_000 lines 95-101. -/
noncomputable def foliageTarget (count i : ℕ) : V3 :=
  let yNorm : ℝ := (i : ℝ) / (count : ℝ)
  let y : ℝ := yNorm * 12
  let currentRadius : ℝ := 5 * (1 - yNorm)
  let angle : ℝ := 2 * π * goldenRatio * (i : ℝ)
  ⟨Real.cos angle * currentRadius, y, Real.sin angle * currentRadius⟩

/-- The formula the specification text gives for the i-th foliage target:
angle `2π·φ·i` with `φ` the golden ratio, height `(i/count)·12`, radius
`5·(1 − i/count)`, target `(radius·cos angle, y, radius·sin angle)`.
Stated separately from `foliageTarget` so the two can be compared. -/
noncomputable def specTargetFormula (count i : ℕ) : V3 :=
  let phi : ℝ := (1 + Real.sqrt 5) / 2
  let angle : ℝ := 2 * π * phi * (i : ℝ)
  let yv : ℝ := ((i : ℝ) / (count : ℝ)) * 12
  let radius : ℝ := 5 * (1 - (i : ℝ) / (count : ℝ))
  ⟨radius * Real.cos angle, yv, radius * Real.sin angle⟩

/-- C7: every foliage target position lies on the cone/spiral surface claimed
by the specification: the generated i-th target equals the spec formula
(angle `2π·φ·i`, height `(i/count)·12`, radius `5·(1−i/count)`), and the
constant the code uses is indeed the golden ratio (the positive root of
`x² = x + 1`). -/
theorem c7_spiral_target :
    (∀ count i : ℕ, foliageTarget count i = specTargetFormula count i)
    ∧ goldenRatio ^ 2 = goldenRatio + 1 ∧ 1 < goldenRatio := by
  refine ⟨fun count i => ?_, ?_, ?_⟩
  · unfold foliageTarget specTargetFormula goldenRatio
    ext <;> dsimp only <;> ring
  · have h5 : Real.sqrt 5 ^ 2 = 5 := Real.sq_sqrt (by norm_num)
    unfold goldenRatio
    nlinarith [h5]
  · have h5 : (1:ℝ) < Real.sqrt 5 := by
      have : Real.sqrt 1 < Real.sqrt 5 := by
        apply Real.sqrt_lt_sqrt <;> norm_num
      simpa using this
    unfold goldenRatio
    linarith

/-- `Math.cbrt` on the nonnegative reals the generator feeds it. -/
noncomputable def cbrt (x : ℝ) : ℝ := x ^ ((1:ℝ) / 3)

/-- The i-th foliage chaos position, transcribed from
src/unnamed/part_000 lines 88-93.  `u` is the `Math.random()` stream; the
loop body draws `u (4*i)` for the radius, `u (4*i+1)` for theta,
`u (4*i+2)` for phi and `u (4*i+3)` for the per-point random scalar. -/
noncomputable def foliageChaos (u : ℕ → ℝ) (i : ℕ) : V3 :=
  let r : ℝ := 25 * cbrt (u (4 * i))
  let theta : ℝ := u (4 * i + 1) * 2 * π
  let phi : ℝ := Real.arccos (2 * u (4 * i + 2) - 1)
  ⟨r * Real.sin phi * Real.cos theta,
   r * Real.sin phi * Real.sin theta + 5,
   r * Real.cos phi⟩

/-- The i-th per-point random scalar `rnd[i] = Math.random()`. -/
def foliageRandomScalar (u : ℕ → ℝ) (i : ℕ) : ℝ := u (4 * i + 3)

/-- The chaos-position array produced by the foliage generator loop. -/
noncomputable def foliageChaosList (u : ℕ → ℝ) (count : ℕ) : List V3 :=
  (List.range count).map (foliageChaos u)

/-- The target-position array produced by the foliage generator loop. -/
noncomputable def foliageTargetList (count : ℕ) : List V3 :=
  (List.range count).map (foliageTarget count)

/-- The per-point random-scalar array produced by the foliage generator loop. -/
def foliageRandomList (u : ℕ → ℝ) (count : ℕ) : List ℝ :=
  (List.range count).map (foliageRandomScalar u)

/-- The state owned by the `Foliage` component: the smoothed progress ref and
the two shader uniforms it writes each frame. -/
structure FoliageState where
  progress : ℝ
  uTime : ℝ
  uProgress : ℝ

/-- Initial foliage state: `progressRef = useRef(0)` and both uniforms
initialized to 0. -/
def foliageInit : FoliageState := ⟨0, 0, 0⟩

/-- One `useFrame` tick of the `Foliage` component (src/unnamed/part_000
lines 112-120): write the elapsed time uniform, pick the target `1` (formed)
or `0` (scattered), move the progress ref by
`THREE.MathUtils.lerp(progress, target, delta * 1.5)`, and write it to the
progress uniform. -/
noncomputable def foliageFrame (formed : Bool) (time delta : ℝ) (s : FoliageState) : FoliageState :=
  let target : ℝ := if formed then 1 else 0
  let p : ℝ := lerp s.progress target (delta * 1.5)
  ⟨p, time, p⟩

/-- A run of foliage frames from the initial state; each frame carries
(mode, elapsed time, delta). -/
noncomputable def foliageRun (frames : List (Bool × ℝ × ℝ)) : FoliageState :=
  frames.foldl (fun s f => foliageFrame f.1 f.2.1 f.2.2 s) foliageInit

theorem foliageFrame_progress_mem (formed : Bool) (time delta : ℝ) (s : FoliageState)
    (h0 : 0 ≤ s.progress) (h1 : s.progress ≤ 1)
    (hd0 : 0 ≤ delta) (hd1 : delta * 1.5 ≤ 1) :
    0 ≤ (foliageFrame formed time delta s).progress
      ∧ (foliageFrame formed time delta s).progress ≤ 1 := by
  unfold foliageFrame lerp
  have ht : 0 ≤ delta * 1.5 := by linarith
  cases formed <;> dsimp only <;> norm_num <;> constructor <;> nlinarith

theorem foliageRun_invariant (frames : List (Bool × ℝ × ℝ)) :
    ∀ s : FoliageState, 0 ≤ s.progress → s.progress ≤ 1 →
      (∀ f ∈ frames, 0 ≤ f.2.2 ∧ f.2.2 * 1.5 ≤ 1) →
      0 ≤ (frames.foldl (fun s f => foliageFrame f.1 f.2.1 f.2.2 s) s).progress
        ∧ (frames.foldl (fun s f => foliageFrame f.1 f.2.1 f.2.2 s) s).progress ≤ 1 := by
  induction frames with
  | nil => intro s h0 h1 _; exact ⟨h0, h1⟩
  | cons f fs ih =>
    intro s h0 h1 hf
    have hd := hf f (List.mem_cons_self f fs)
    have hstep := foliageFrame_progress_mem f.1 f.2.1 f.2.2 s h0 h1 hd.1 hd.2
    simpa using ih (foliageFrame f.1 f.2.1 f.2.2 s) hstep.1 hstep.2
      (fun g hg => hf g (List.mem_cons_of_mem f hg))

/-- Counterexample to C4 as stated: a single formed-mode frame with the
non-negative delta `1` drives the progress scalar from 0 to 1.5, outside
`[0, 1]`, because `THREE.MathUtils.lerp` does not clamp its interpolant. -/
theorem c4_progress_bounds_cex :
    ¬ ((foliageRun [(true, 0, 1)]).progress ≤ 1) := by
  simp only [foliageRun, List.foldl, foliageFrame, foliageInit, lerp]
  norm_num

/-- C4 (amended): the foliage progress scalar starts at 0, and for every
sequence of per-frame updates with arbitrary mode values it remains in
`[0, 1]` after every update, provided each frame's delta is non-negative and
satisfies `delta * 1.5 ≤ 1` (the lerp interpolant stays in `[0, 1]`); with a
larger delta the unclamped lerp can leave the interval. -/
theorem c4_progress_invariant_amended :
    foliageInit.progress = 0
    ∧ ∀ frames : List (Bool × ℝ × ℝ),
        (∀ f ∈ frames, 0 ≤ f.2.2 ∧ f.2.2 * 1.5 ≤ 1) →
        0 ≤ (foliageRun frames).progress ∧ (foliageRun frames).progress ≤ 1 := by
  refine ⟨rfl, fun frames hf => ?_⟩
  exact foliageRun_invariant frames foliageInit (by norm_num [foliageInit])
    (by norm_num [foliageInit]) hf

/-- Witness for C4 (amended) on the concrete two-frame run
formed with delta 1/2, then scattered with delta 1/3. -/
theorem c4_progress_invariant_witness :
    0 ≤ (foliageRun [(true, 0, 1/2), (false, 1, 1/3)]).progress
      ∧ (foliageRun [(true, 0, 1/2), (false, 1, 1/3)]).progress ≤ 1 := by
  refine c4_progress_invariant_amended.2 _ ?_
  intro f hf
  simp only [List.mem_cons, List.not_mem_nil, or_false] at hf
  rcases hf with h | h <;> subst h <;> norm_num

/-- Two-argument arctangent with the IEEE conventions JavaScript's
`Math.atan2` follows on the inputs the code produces. -/
noncomputable def atan2 (y x : ℝ) : ℝ :=
  if 0 < x then Real.arctan (y / x)
  else if x < 0 then
    (if 0 ≤ y then Real.arctan (y / x) + π else Real.arctan (y / x) - π)
  else
    (if 0 < y then π / 2 else if y < 0 then -(π / 2) else 0)

/-- The facing direction (local `+z` axis, the direction the object is
rotated to face) produced by `Object3D.lookAt(0, position.y, 0)` for an
object at horizontal coordinates `(px, pz)`.  Three.js builds
`_z = normalize(lookTarget - position) = normalize(-px, 0, -pz)`, with the
fallback `(0, 0, 1)` when that vector is zero. -/
noncomputable def lookAtFacing (px pz : ℝ) : V3 :=
  if px = 0 ∧ pz = 0 then ⟨0, 0, 1⟩
  else ⟨-px / Real.sqrt (px ^ 2 + pz ^ 2), 0, -pz / Real.sqrt (px ^ 2 + pz ^ 2)⟩

/-- The XYZ Euler angles `Object3D.rotation` exposes after
`lookAt(0, position.y, 0)`.  With facing `F = lookAtFacing px pz` the
rotation basis is columns `(F.z, 0, -F.x)`, `(0, 1, 0)`, `F`, and
`Euler.setFromRotationMatrix` (order XYZ) reads `y = asin(clamp(m13, -1, 1))`
and, away from gimbal lock, `x = atan2(-m23, m33)`, `z = atan2(-m12, m11)`,
which here are both `atan2 0 F.z`. -/
noncomputable def lookAtEuler (px pz : ℝ) : V3 :=
  if |(lookAtFacing px pz).x| < 0.9999999 then
    ⟨atan2 0 (lookAtFacing px pz).z,
     Real.arcsin (max (-1) (min 1 (lookAtFacing px pz).x)),
     atan2 0 (lookAtFacing px pz).z⟩
  else
    ⟨atan2 0 1, Real.arcsin (max (-1) (min 1 (lookAtFacing px pz).x)), 0⟩

/-- Per-instance ornament data fixed at creation (`InstanceData` in
`Ornaments.tsx`). -/
structure InstanceData where
  chaosPos : V3
  targetPos : V3
  type : OrnamentType
  color : V3
  scale : ℝ
  speed : ℝ
  rotationOffset : V3

/-- The mutable transform of one instance: the (position, XYZ Euler rotation,
scale) triple the per-frame code decomposes the instance matrix into and
recomposes from. -/
@[ext]
structure Transform where
  pos : V3
  rot : V3
  scale : V3

/-- One per-frame update of a single ornament instance, transcribed from the
body of `updateMesh` in `Ornaments.tsx` lines 119-147: lerp the position
toward the mode-selected destination by `delta * speed`; in formed mode, when
the (post-lerp) position is within 0.5 of the target, add the sinusoidal
bobbing offset to `y`; gifts increment their Euler rotation on x and y, other
categories `lookAt(0, position.y, 0)`; the scale is reset to the instance
scale, with the sinusoidal pulse factor for lights. -/
noncomputable def updateInstance (d : InstanceData) (formed : Bool) (time delta : ℝ)
    (t : Transform) : Transform :=
  let dest := if formed then d.targetPos else d.chaosPos
  let step := delta * d.speed
  let p1 := lerpV3 t.pos dest step
  let p2 := if formed then
      (if distanceTo p1 d.targetPos < 0.5 then
        ⟨p1.x, p1.y + Real.sin (time * 2 + d.chaosPos.x) * 0.002, p1.z⟩
      else p1)
    else p1
  let rot := if d.type = .gift then
      ⟨t.rot.x + delta * 0.5, t.rot.y + delta * 0.2, t.rot.z⟩
    else lookAtEuler p2.x p2.z
  let scl := if d.type = .light then
      let pulse := 1 + Real.sin (time * 5 + d.chaosPos.y) * 0.3
      (⟨d.scale * pulse, d.scale * pulse, d.scale * pulse⟩ : V3)
    else (⟨d.scale, d.scale, d.scale⟩ : V3)
  ⟨p2, rot, scl⟩

theorem lerpV3_zero (p v : V3) : lerpV3 p v 0 = p := by
  unfold lerpV3; ext <;> dsimp only <;> ring

theorem distanceTo_nonneg (a b : V3) : 0 ≤ distanceTo a b := Real.sqrt_nonneg _

theorem distanceTo_lerpV3 (p v : V3) (s : ℝ) (hs : s ≤ 1) :
    distanceTo (lerpV3 p v s) v = (1 - s) * distanceTo p v := by
  unfold distanceTo lerpV3
  dsimp only
  rw [show (p.x + (v.x - p.x) * s - v.x) ^ 2 + (p.y + (v.y - p.y) * s - v.y) ^ 2
      + (p.z + (v.z - p.z) * s - v.z) ^ 2
      = (1 - s) ^ 2 * ((p.x - v.x) ^ 2 + (p.y - v.y) ^ 2 + (p.z - v.z) ^ 2) from by ring]
  rw [Real.sqrt_mul (sq_nonneg _), Real.sqrt_sq_eq_abs, abs_of_nonneg (by linarith)]

theorem abs_atan2_le_pi (y x : ℝ) : |atan2 y x| ≤ π := by
  unfold atan2
  have hpi := Real.pi_pos
  split_ifs with h1 h2 h3 h4 h5
  · have ha := Real.arctan_lt_pi_div_two (y / x)
    have hb := Real.neg_pi_div_two_lt_arctan (y / x)
    rw [abs_le]; constructor <;> linarith
  · have hyx : y / x ≤ 0 := div_nonpos_iff.mpr (Or.inl ⟨h3, le_of_lt h2⟩)
    have ha : Real.arctan (y / x) ≤ 0 := by
      have hm := Real.arctan_strictMono.monotone hyx
      simpa [Real.arctan_zero] using hm
    have hb := Real.neg_pi_div_two_lt_arctan (y / x)
    rw [abs_le]; constructor <;> linarith
  · have hyx : 0 ≤ y / x := le_of_lt (div_pos_iff.mpr (Or.inr ⟨by linarith, h2⟩))
    have ha : 0 ≤ Real.arctan (y / x) := by
      have hm := Real.arctan_strictMono.monotone hyx
      simpa [Real.arctan_zero] using hm
    have hb := Real.arctan_lt_pi_div_two (y / x)
    rw [abs_le]; constructor <;> linarith
  · rw [abs_le]; constructor <;> linarith
  · rw [abs_le]; constructor <;> linarith
  · simpa using le_of_lt hpi

theorem abs_arcsin_le_pi (w : ℝ) : |Real.arcsin w| ≤ π := by
  have h1 := Real.arcsin_le_pi_div_two w
  have h2 := Real.neg_pi_div_two_le_arcsin w
  have hpi := Real.pi_pos
  rw [abs_le]; constructor <;> linarith

theorem lookAtEuler_abs_le_pi (px pz : ℝ) :
    |(lookAtEuler px pz).x| ≤ π ∧ |(lookAtEuler px pz).y| ≤ π
      ∧ |(lookAtEuler px pz).z| ≤ π := by
  unfold lookAtEuler
  split_ifs with h <;> dsimp only
  · exact ⟨abs_atan2_le_pi _ _, abs_arcsin_le_pi _, abs_atan2_le_pi _ _⟩
  · refine ⟨abs_atan2_le_pi _ _, abs_arcsin_le_pi _, by
      simpa using le_of_lt Real.pi_pos⟩

theorem updateInstance_pos_false (d : InstanceData) (time delta : ℝ) (t : Transform) :
    (updateInstance d false time delta t).pos = lerpV3 t.pos d.chaosPos (delta * d.speed) := by
  unfold updateInstance
  simp

theorem updateInstance_pos_true_near (d : InstanceData) (time delta : ℝ) (t : Transform)
    (h : distanceTo (lerpV3 t.pos d.targetPos (delta * d.speed)) d.targetPos < 0.5) :
    (updateInstance d true time delta t).pos =
      ⟨(lerpV3 t.pos d.targetPos (delta * d.speed)).x,
       (lerpV3 t.pos d.targetPos (delta * d.speed)).y
         + Real.sin (time * 2 + d.chaosPos.x) * 0.002,
       (lerpV3 t.pos d.targetPos (delta * d.speed)).z⟩ := by
  unfold updateInstance
  simp [h]

theorem updateInstance_pos_true_far (d : InstanceData) (time delta : ℝ) (t : Transform)
    (h : ¬ distanceTo (lerpV3 t.pos d.targetPos (delta * d.speed)) d.targetPos < 0.5) :
    (updateInstance d true time delta t).pos = lerpV3 t.pos d.targetPos (delta * d.speed) := by
  unfold updateInstance
  simp [h]

theorem updateInstance_rot_eq (d : InstanceData) (formed : Bool) (time delta : ℝ)
    (t : Transform) :
    (updateInstance d formed time delta t).rot
      = if d.type = .gift then
          (⟨t.rot.x + delta * 0.5, t.rot.y + delta * 0.2, t.rot.z⟩ : V3)
        else lookAtEuler (updateInstance d formed time delta t).pos.x
            (updateInstance d formed time delta t).pos.z := rfl

theorem updateInstance_scale_eq (d : InstanceData) (formed : Bool) (time delta : ℝ)
    (t : Transform) :
    (updateInstance d formed time delta t).scale
      = if d.type = .light then
          (⟨d.scale * (1 + Real.sin (time * 5 + d.chaosPos.y) * 0.3),
            d.scale * (1 + Real.sin (time * 5 + d.chaosPos.y) * 0.3),
            d.scale * (1 + Real.sin (time * 5 + d.chaosPos.y) * 0.3)⟩ : V3)
        else (⟨d.scale, d.scale, d.scale⟩ : V3) := rfl

/-- C10: the idle bobbing offset is applied only in formed mode: a scattered-mode
per-frame update leaves the position exactly at the lerp result toward the chaos
destination, with no sinusoidal y-offset, even when that position is within 0.5
distance units of the instance's formed target position. -/
theorem c10_bob_only_formed :
    ∀ (d : InstanceData) (time delta : ℝ) (t : Transform),
      distanceTo (lerpV3 t.pos d.chaosPos (delta * d.speed)) d.targetPos < 0.5 →
      (updateInstance d false time delta t).pos
        = lerpV3 t.pos d.chaosPos (delta * d.speed) := by
  intro d time delta t _h
  exact updateInstance_pos_false d time delta t

/-- Sample instance whose chaos and target positions coincide at the origin. -/
def originInstance : InstanceData :=
  ⟨⟨0, 0, 0⟩, ⟨0, 0, 0⟩, .ball, ⟨0, 0, 0⟩, 1, 1, ⟨0, 0, 0⟩⟩

/-- Sample starting transform at the origin. -/
def zeroStart : Transform := ⟨⟨0, 0, 0⟩, ⟨0, 0, 0⟩, ⟨1, 1, 1⟩⟩

/-- Witness for C10: at the origin instance the lerped position is within 0.5
of the formed target, and the scattered update still equals the bare lerp. -/
theorem c10_bob_only_formed_witness :
    (updateInstance originInstance false 0 0 zeroStart).pos
      = lerpV3 zeroStart.pos originInstance.chaosPos (0 * originInstance.speed) := by
  apply c10_bob_only_formed
  simp [originInstance, zeroStart, lerpV3, distanceTo]
  norm_num

/-- Instance used for the C1 counterexample: at its formed target, with a chaos
x-coordinate chosen so the bobbing phase is `π/2` at time 0. -/
noncomputable def bobInstance : InstanceData :=
  ⟨⟨π / 2, 0, 0⟩, ⟨0, 0, 0⟩, .ball, ⟨0, 0, 0⟩, 1, 1, ⟨0, 0, 0⟩⟩

/-- Counterexample to C1 as stated: in formed mode, with delta = 0 and the same
elapsed time 0, an instance sitting at its target gets the bobbing offset
`sin(π/2)·0.002` added to `y` on every call, so the second call moves the
position again (0.002 to 0.004). -/
theorem c1_delta_zero_not_idempotent_cex :
    (updateInstance bobInstance true 0 0
        (updateInstance bobInstance true 0 0 zeroStart)).pos.y
      ≠ (updateInstance bobInstance true 0 0 zeroStart).pos.y := by
  have hsin : Real.sin (0 * 2 + bobInstance.chaosPos.x) = 1 := by
    simp [bobInstance]
  have hd1 : distanceTo (lerpV3 zeroStart.pos bobInstance.targetPos
      (0 * bobInstance.speed)) bobInstance.targetPos < 0.5 := by
    simp [bobInstance, zeroStart, lerpV3, distanceTo]
    norm_num
  have h1 : (updateInstance bobInstance true 0 0 zeroStart).pos = ⟨0, 0.002, 0⟩ := by
    rw [updateInstance_pos_true_near _ _ _ _ hd1]
    ext <;> simp [bobInstance, zeroStart, lerpV3, hsin] <;> norm_num
  have hd2 : distanceTo (lerpV3 (updateInstance bobInstance true 0 0 zeroStart).pos
      bobInstance.targetPos (0 * bobInstance.speed)) bobInstance.targetPos < 0.5 := by
    rw [h1]
    simp only [bobInstance, lerpV3, distanceTo]
    norm_num
    rw [show (250000:ℝ) = 500 ^ 2 by norm_num, Real.sqrt_sq (by norm_num : (0:ℝ) ≤ 500)]
    norm_num
  have h2 : (updateInstance bobInstance true 0 0
      (updateInstance bobInstance true 0 0 zeroStart)).pos.y = 0.004 := by
    rw [updateInstance_pos_true_near _ _ _ _ hd2]
    rw [show (⟨(lerpV3 (updateInstance bobInstance true 0 0 zeroStart).pos
        bobInstance.targetPos (0 * bobInstance.speed)).x,
        (lerpV3 (updateInstance bobInstance true 0 0 zeroStart).pos
          bobInstance.targetPos (0 * bobInstance.speed)).y
          + Real.sin (0 * 2 + bobInstance.chaosPos.x) * 0.002,
        (lerpV3 (updateInstance bobInstance true 0 0 zeroStart).pos
          bobInstance.targetPos (0 * bobInstance.speed)).z⟩ : V3).y
      = (lerpV3 (updateInstance bobInstance true 0 0 zeroStart).pos
          bobInstance.targetPos (0 * bobInstance.speed)).y
          + Real.sin (0 * 2 + bobInstance.chaosPos.x) * 0.002 from rfl]
    rw [h1, hsin]
    simp [bobInstance, lerpV3]
    norm_num
  rw [h2, h1]
  norm_num

/-- C1 (amended): the per-frame ornament update with delta = 0 is idempotent
whenever the mode is scattered, or the mode is formed but the once-updated
position is at distance at least 0.5 from the formed target (so the bobbing
branch does not fire); in formed mode within 0.5 of the target the sinusoidal
bobbing offset is re-added by every call, so the second call can change the
position. -/
theorem c1_delta_zero_idempotent_amended :
    ∀ (d : InstanceData) (formed : Bool) (time : ℝ) (t : Transform),
    (formed = false
        ∨ 0.5 ≤ distanceTo (updateInstance d formed time 0 t).pos d.targetPos) →
    updateInstance d formed time 0 (updateInstance d formed time 0 t)
      = updateInstance d formed time 0 t := by
  intro d formed time t h
  have hstep : (0:ℝ) * d.speed = 0 := by ring
  have hpos : (updateInstance d formed time 0 (updateInstance d formed time 0 t)).pos
      = (updateInstance d formed time 0 t).pos := by
    cases formed with
    | false =>
      rw [updateInstance_pos_false, hstep, lerpV3_zero]
    | true =>
      rcases h with h | h
      · exact absurd h (by simp)
      · rw [updateInstance_pos_true_far]
        · rw [hstep, lerpV3_zero]
        · rw [hstep, lerpV3_zero]
          exact not_lt.mpr h
  have hrot : (updateInstance d formed time 0 (updateInstance d formed time 0 t)).rot
      = (updateInstance d formed time 0 t).rot := by
    rw [updateInstance_rot_eq d formed time 0 (updateInstance d formed time 0 t)]
    by_cases hg : d.type = .gift
    · rw [if_pos hg]
      rw [updateInstance_rot_eq d formed time 0 t, if_pos hg]
      ext <;> dsimp only <;> ring
    · rw [if_neg hg, hpos]
      rw [updateInstance_rot_eq d formed time 0 t, if_neg hg]
  have hscl : (updateInstance d formed time 0 (updateInstance d formed time 0 t)).scale
      = (updateInstance d formed time 0 t).scale := by
    rw [updateInstance_scale_eq, updateInstance_scale_eq]
  exact Transform.ext hpos hrot hscl

/-- Witness for C1 (amended): a concrete scattered-mode double update. -/
theorem c1_delta_zero_idempotent_witness :
    updateInstance bobInstance false 0 0 (updateInstance bobInstance false 0 0 zeroStart)
      = updateInstance bobInstance false 0 0 zeroStart :=
  c1_delta_zero_idempotent_amended bobInstance false 0 zeroStart (Or.inl rfl)

/-- Instance used for the C2 counterexample: a ball whose chaos position is at
`(1, 0, 0)`, off the vertical axis. -/
def radialInstance : InstanceData :=
  ⟨⟨1, 0, 0⟩, ⟨0, 0, 0⟩, .ball, ⟨0, 0, 0⟩, 1, 1, ⟨0, 0, 0⟩⟩

/-- Starting transform at `(1, 0, 0)` for the C2 counterexample. -/
def radialStart : Transform := ⟨⟨1, 0, 0⟩, ⟨0, 0, 0⟩, ⟨1, 1, 1⟩⟩

/-- Counterexample to C2 as stated: after a scattered-mode update of a ball at
`(1, 0, 0)`, the facing direction produced by `lookAt(0, y, 0)` is `(-1, 0, 0)`,
which is no positive multiple of the outward radial direction `(1, 0, 0)`; the
instance faces toward the axis, not away from it. -/
theorem c2_rotation_outward_cex :
    (updateInstance radialInstance false 0 0 radialStart).pos = ⟨1, 0, 0⟩
    ∧ lookAtFacing (1 : ℝ) 0 = ⟨-1, 0, 0⟩
    ∧ ¬ ∃ c : ℝ, 0 < c ∧ lookAtFacing (1 : ℝ) 0 = ⟨c * 1, 0, c * 0⟩ := by
  have hF : lookAtFacing (1 : ℝ) 0 = ⟨-1, 0, 0⟩ := by
    unfold lookAtFacing
    rw [if_neg (by norm_num)]
    ext <;> simp <;> norm_num
  refine ⟨?_, hF, ?_⟩
  · rw [updateInstance_pos_false]
    ext <;> simp [radialInstance, radialStart, lerpV3]
  · rintro ⟨c, hc, heq⟩
    rw [hF] at heq
    have hx : (-1 : ℝ) = c * 1 := congrArg V3.x heq
    linarith

/-- C2 (amended): rotation is category-specific on every per-frame update, but
non-gift instances face toward, not away from, the vertical center axis: every
gift's Euler rotation is incremented by `delta·0.5` on x and `delta·0.2` on y;
every non-gift instance's rotation is set by `lookAt(0, position.y, 0)`, whose
facing direction is horizontal and has strictly negative dot product with the
outward radial direction `(pos.x, 0, pos.z)` whenever the instance is off the
axis (it points radially inward at the instance's own height). -/
theorem c2_category_rotation_amended :
    (∀ (d : InstanceData) (formed : Bool) (time delta : ℝ) (t : Transform),
        d.type = .gift →
        (updateInstance d formed time delta t).rot
          = ⟨t.rot.x + delta * 0.5, t.rot.y + delta * 0.2, t.rot.z⟩)
    ∧ (∀ (d : InstanceData) (formed : Bool) (time delta : ℝ) (t : Transform),
        d.type ≠ .gift →
        (updateInstance d formed time delta t).rot
          = lookAtEuler (updateInstance d formed time delta t).pos.x
              (updateInstance d formed time delta t).pos.z)
    ∧ (∀ px pz : ℝ, ¬ (px = 0 ∧ pz = 0) →
        (lookAtFacing px pz).y = 0
        ∧ (lookAtFacing px pz).x * px + (lookAtFacing px pz).z * pz < 0) := by
  refine ⟨fun d formed time delta t hg => ?_, fun d formed time delta t hg => ?_,
    fun px pz h => ?_⟩
  · rw [updateInstance_rot_eq, if_pos hg]
  · rw [updateInstance_rot_eq, if_neg hg]
  · have hs : 0 < px ^ 2 + pz ^ 2 := by
      rcases not_and_or.mp h with h1 | h1
      · have h2 : 0 < px ^ 2 := lt_of_le_of_ne (sq_nonneg px) (Ne.symm (pow_ne_zero 2 h1))
        nlinarith [sq_nonneg pz]
      · have h2 : 0 < pz ^ 2 := lt_of_le_of_ne (sq_nonneg pz) (Ne.symm (pow_ne_zero 2 h1))
        nlinarith [sq_nonneg px]
    have hn : 0 < Real.sqrt (px ^ 2 + pz ^ 2) := Real.sqrt_pos.mpr hs
    have hF : lookAtFacing px pz
        = ⟨-px / Real.sqrt (px ^ 2 + pz ^ 2), 0, -pz / Real.sqrt (px ^ 2 + pz ^ 2)⟩ := by
      unfold lookAtFacing
      rw [if_neg h]
    rw [hF]
    refine ⟨rfl, ?_⟩
    rw [show -px / Real.sqrt (px ^ 2 + pz ^ 2) * px
        + -pz / Real.sqrt (px ^ 2 + pz ^ 2) * pz
        = -((px ^ 2 + pz ^ 2) / Real.sqrt (px ^ 2 + pz ^ 2)) from by ring]
    exact neg_lt_zero.mpr (div_pos hs hn)

/-- Sample gift instance for the C2 witness. -/
def giftSample : InstanceData :=
  ⟨⟨0, 0, 0⟩, ⟨0, 0, 0⟩, .gift, ⟨0, 0, 0⟩, 1, 1, ⟨0, 0, 0⟩⟩

/-- Witness for C2 (amended): the gift rotation increment at delta = 1, and the
inward-facing property at the off-axis point `(1, 0)`. -/
theorem c2_category_rotation_witness :
    (updateInstance giftSample false 0 1 zeroStart).rot
      = ⟨zeroStart.rot.x + 1 * 0.5, zeroStart.rot.y + 1 * 0.2, zeroStart.rot.z⟩
    ∧ (lookAtFacing (1:ℝ) 0).y = 0
    ∧ (lookAtFacing (1:ℝ) 0).x * 1 + (lookAtFacing (1:ℝ) 0).z * 0 < 0 :=
  ⟨c2_category_rotation_amended.1 giftSample false 0 1 zeroStart rfl,
   (c2_category_rotation_amended.2.2 1 0 (by norm_num)).1,
   (c2_category_rotation_amended.2.2 1 0 (by norm_num)).2⟩

/-- Counterexample to C3 as stated: a single formed-mode foliage tick with the
positive delta 2 multiplies the residual by `|1 - 1.5·2| = 2`: the residual
distance to the target 1 grows from 1 to 2 instead of strictly decreasing
(the unclamped lerp overshoots past the target). -/
theorem c3_residual_decrease_cex :
    |1 - (foliageFrame true 0 2 foliageInit).progress| > |1 - foliageInit.progress| := by
  have h1 : (foliageFrame true 0 2 foliageInit).progress = 3 := by
    simp [foliageFrame, foliageInit, lerp]
    norm_num
  have h2 : foliageInit.progress = 0 := rfl
  rw [h1, h2,
    show |(1:ℝ) - 3| = 2 from by
      rw [abs_of_nonpos (by norm_num : (1:ℝ) - 3 ≤ 0)]; norm_num,
    show |(1:ℝ) - 0| = 1 from by
      rw [abs_of_nonneg (by norm_num : (0:ℝ) ≤ 1 - 0)]; norm_num]
  norm_num

/-- C3 (amended): the interpolation stage contracts residuals only when the
per-tick step lies in `(0, 1]`.  Foliage: with `0 < delta·1.5 ≤ 1` each tick
multiplies the residual to the mode target (1 formed, 0 scattered) by
`(1 - delta·1.5)`, so it strictly decreases whenever nonzero and never crosses
the target (the old and new residuals never have opposite signs).  Ornaments:
with `0 < delta·speed ≤ 1` a scattered-mode update is exactly the lerp toward
the chaos destination and multiplies the distance to it by `(1 - delta·speed)`,
strictly decreasing it when nonzero.  With a larger step the unclamped lerp
overshoots and the residual can grow; in formed mode the bobbing offset applied
after the lerp near the target can additionally move `y` by up to 0.002. -/
theorem c3_residual_decrease_amended :
    (∀ (formed : Bool) (time delta : ℝ) (s : FoliageState),
        0 < delta * 1.5 → delta * 1.5 ≤ 1 →
        |(if formed then (1:ℝ) else 0) - (foliageFrame formed time delta s).progress|
            = (1 - delta * 1.5) * |(if formed then (1:ℝ) else 0) - s.progress|
          ∧ (s.progress ≠ (if formed then (1:ℝ) else 0) →
              |(if formed then (1:ℝ) else 0) - (foliageFrame formed time delta s).progress|
                < |(if formed then (1:ℝ) else 0) - s.progress|)
          ∧ 0 ≤ ((if formed then (1:ℝ) else 0) - (foliageFrame formed time delta s).progress)
              * ((if formed then (1:ℝ) else 0) - s.progress))
    ∧ (∀ (d : InstanceData) (time delta : ℝ) (t : Transform),
        0 < delta * d.speed → delta * d.speed ≤ 1 →
        (updateInstance d false time delta t).pos = lerpV3 t.pos d.chaosPos (delta * d.speed)
          ∧ distanceTo (updateInstance d false time delta t).pos d.chaosPos
              = (1 - delta * d.speed) * distanceTo t.pos d.chaosPos
          ∧ (distanceTo t.pos d.chaosPos ≠ 0 →
              distanceTo (updateInstance d false time delta t).pos d.chaosPos
                < distanceTo t.pos d.chaosPos)) := by
  constructor
  · intro formed time delta s h1 h2
    have hp : (foliageFrame formed time delta s).progress
        = (1 - delta * 1.5) * s.progress
          + (delta * 1.5) * (if formed then (1:ℝ) else 0) := by
      unfold foliageFrame lerp
      dsimp only
    have hres : (if formed then (1:ℝ) else 0) - (foliageFrame formed time delta s).progress
        = (1 - delta * 1.5) * ((if formed then (1:ℝ) else 0) - s.progress) := by
      rw [hp]; ring
    refine ⟨?_, ?_, ?_⟩
    · rw [hres, abs_mul, abs_of_nonneg (by linarith)]
    · intro hne
      have habs : 0 < |(if formed then (1:ℝ) else 0) - s.progress| :=
        abs_pos.mpr (sub_ne_zero.mpr (Ne.symm hne))
      rw [hres, abs_mul, abs_of_nonneg (by linarith)]
      exact mul_lt_of_lt_one_left habs (by linarith)
    · rw [hres, mul_assoc]
      exact mul_nonneg (by linarith) (mul_self_nonneg _)
  · intro d time delta t h1 h2
    have hpos := updateInstance_pos_false d time delta t
    refine ⟨hpos, ?_, ?_⟩
    · rw [hpos, distanceTo_lerpV3 _ _ _ h2]
    · intro hne
      have hD : 0 < distanceTo t.pos d.chaosPos :=
        lt_of_le_of_ne (distanceTo_nonneg _ _) (Ne.symm hne)
      rw [hpos, distanceTo_lerpV3 _ _ _ h2]
      exact mul_lt_of_lt_one_left hD (by linarith)

/-- Witness for C3 (amended): the foliage residual equality at a formed tick
with delta 1/3, and the ornament lerp equality at a scattered update with
delta 1/3 and speed 1. -/
theorem c3_residual_decrease_witness :
    |(if true then (1:ℝ) else 0) - (foliageFrame true 0 (1/3) foliageInit).progress|
        = (1 - (1/3) * 1.5) * |(if true then (1:ℝ) else 0) - foliageInit.progress|
    ∧ (updateInstance giftSample false 0 (1/3) zeroStart).pos
        = lerpV3 zeroStart.pos giftSample.chaosPos ((1/3) * giftSample.speed) :=
  ⟨(c3_residual_decrease_amended.1 true 0 (1/3) foliageInit
      (by norm_num) (by norm_num)).1,
   (c3_residual_decrease_amended.2 giftSample 0 (1/3) zeroStart
      (by norm_num [giftSample]) (by norm_num [giftSample])).1⟩

/-- A formed-mode run of per-frame updates on one ornament instance; each frame
carries (elapsed time, delta). -/
noncomputable def runInstance (d : InstanceData) (frames : List (ℝ × ℝ))
    (t : Transform) : Transform :=
  frames.foldl (fun s f => updateInstance d true f.1 f.2 s) t

theorem updateInstance_scale_bounds (d : InstanceData) (formed : Bool)
    (time delta : ℝ) (t : Transform) (hs : 0 ≤ d.scale) :
    (0.7 * d.scale ≤ (updateInstance d formed time delta t).scale.x
      ∧ (updateInstance d formed time delta t).scale.x ≤ 1.3 * d.scale)
    ∧ (0.7 * d.scale ≤ (updateInstance d formed time delta t).scale.y
      ∧ (updateInstance d formed time delta t).scale.y ≤ 1.3 * d.scale)
    ∧ (0.7 * d.scale ≤ (updateInstance d formed time delta t).scale.z
      ∧ (updateInstance d formed time delta t).scale.z ≤ 1.3 * d.scale) := by
  rw [updateInstance_scale_eq]
  by_cases hl : d.type = .light
  · rw [if_pos hl]
    have h1 := Real.neg_one_le_sin (time * 5 + d.chaosPos.y)
    have h2 := Real.sin_le_one (time * 5 + d.chaosPos.y)
    refine ⟨⟨?_, ?_⟩, ⟨?_, ?_⟩, ⟨?_, ?_⟩⟩ <;> dsimp only <;> nlinarith
  · rw [if_neg hl]
    refine ⟨⟨?_, ?_⟩, ⟨?_, ?_⟩, ⟨?_, ?_⟩⟩ <;> dsimp only <;> nlinarith

theorem runInstance_scale_bounds (d : InstanceData) (hs : 0 ≤ d.scale)
    (fs : List (ℝ × ℝ)) :
    ∀ (time delta : ℝ) (t : Transform),
      (0.7 * d.scale ≤ (runInstance d fs (updateInstance d true time delta t)).scale.x
        ∧ (runInstance d fs (updateInstance d true time delta t)).scale.x ≤ 1.3 * d.scale)
      ∧ (0.7 * d.scale ≤ (runInstance d fs (updateInstance d true time delta t)).scale.y
        ∧ (runInstance d fs (updateInstance d true time delta t)).scale.y ≤ 1.3 * d.scale)
      ∧ (0.7 * d.scale ≤ (runInstance d fs (updateInstance d true time delta t)).scale.z
        ∧ (runInstance d fs (updateInstance d true time delta t)).scale.z ≤ 1.3 * d.scale) := by
  induction fs with
  | nil =>
    intro time delta t
    exact updateInstance_scale_bounds d true time delta t hs
  | cons f fs ih =>
    intro time delta t
    exact ih f.1 f.2 (updateInstance d true time delta t)

theorem runInstance_rot_gift (d : InstanceData) (hg : d.type = .gift)
    (frames : List (ℝ × ℝ)) :
    ∀ t : Transform,
      (runInstance d frames t).rot
        = ⟨t.rot.x + 0.5 * (frames.map Prod.snd).sum,
           t.rot.y + 0.2 * (frames.map Prod.snd).sum, t.rot.z⟩ := by
  induction frames with
  | nil =>
    intro t
    show t.rot = _
    ext <;> simp
  | cons f fs ih =>
    intro t
    have hstep : runInstance d (f :: fs) t
        = runInstance d fs (updateInstance d true f.1 f.2 t) := rfl
    rw [hstep, ih]
    rw [updateInstance_rot_eq d true f.1 f.2 t, if_pos hg]
    ext <;> simp <;> ring

theorem runInstance_rot_nongift (d : InstanceData) (hg : d.type ≠ .gift)
    (fs : List (ℝ × ℝ)) :
    ∀ (time delta : ℝ) (t : Transform),
      |(runInstance d fs (updateInstance d true time delta t)).rot.x| ≤ π
      ∧ |(runInstance d fs (updateInstance d true time delta t)).rot.y| ≤ π
      ∧ |(runInstance d fs (updateInstance d true time delta t)).rot.z| ≤ π := by
  induction fs with
  | nil =>
    intro time delta t
    have hred : runInstance d ([] : List (ℝ × ℝ)) (updateInstance d true time delta t)
        = updateInstance d true time delta t := rfl
    rw [hred, updateInstance_rot_eq d true time delta t, if_neg hg]
    exact lookAtEuler_abs_le_pi _ _
  | cons f fs ih =>
    intro time delta t
    exact ih f.1 f.2 (updateInstance d true time delta t)

/-- C5: in the real-number model of the update arithmetic every written
transform component is a well-defined (finite) real number, with explicit
bounds: over any nonempty formed-mode run with positive deltas, every scale
component stays in `[0.7·scale, 1.3·scale]` (the light pulse factor is
`1 + 0.3·sin`); a gift's Euler rotation is exactly the start rotation plus
`(0.5·Σdelta, 0.2·Σdelta, 0)`, and a non-gift rotation, set by the lookAt
Euler extraction, has every component of magnitude at most `π`.  No component
can become NaN or undefined. -/
theorem c5_transform_components_bounded :
    ∀ (d : InstanceData) (t : Transform) (frames : List (ℝ × ℝ)),
      0 ≤ d.scale → frames ≠ [] → (∀ f ∈ frames, 0 < f.2) →
      ((0.7 * d.scale ≤ (runInstance d frames t).scale.x
          ∧ (runInstance d frames t).scale.x ≤ 1.3 * d.scale)
        ∧ (0.7 * d.scale ≤ (runInstance d frames t).scale.y
          ∧ (runInstance d frames t).scale.y ≤ 1.3 * d.scale)
        ∧ (0.7 * d.scale ≤ (runInstance d frames t).scale.z
          ∧ (runInstance d frames t).scale.z ≤ 1.3 * d.scale))
      ∧ (d.type = .gift →
          (runInstance d frames t).rot
            = ⟨t.rot.x + 0.5 * (frames.map Prod.snd).sum,
               t.rot.y + 0.2 * (frames.map Prod.snd).sum, t.rot.z⟩)
      ∧ (d.type ≠ .gift →
          |(runInstance d frames t).rot.x| ≤ π
          ∧ |(runInstance d frames t).rot.y| ≤ π
          ∧ |(runInstance d frames t).rot.z| ≤ π) := by
  intro d t frames hs hne _hpos
  obtain ⟨f, fs, rfl⟩ : ∃ f fs, frames = f :: fs := by
    cases frames with
    | nil => exact absurd rfl hne
    | cons f fs => exact ⟨f, fs, rfl⟩
  have hrun : runInstance d (f :: fs) t
      = runInstance d fs (updateInstance d true f.1 f.2 t) := rfl
  refine ⟨?_, fun hg => runInstance_rot_gift d hg (f :: fs) t, fun hg => ?_⟩
  · rw [hrun]
    exact runInstance_scale_bounds d hs fs f.1 f.2 t
  · rw [hrun]
    exact runInstance_rot_nongift d hg fs f.1 f.2 t

/-- Witness for C5 at the concrete ball instance `originInstance` (scale 1),
starting transform `zeroStart`, and the single frame (time 0, delta 1). -/
theorem c5_transform_components_bounded_witness :
    (0.7 * originInstance.scale
        ≤ (runInstance originInstance [(0, 1)] zeroStart).scale.x
      ∧ (runInstance originInstance [(0, 1)] zeroStart).scale.x
        ≤ 1.3 * originInstance.scale)
    ∧ |(runInstance originInstance [(0, 1)] zeroStart).rot.x| ≤ π := by
  have h := c5_transform_components_bounded originInstance zeroStart [(0, 1)]
    (by norm_num [originInstance]) (by simp) ?_
  · exact ⟨h.1.1, (h.2.2 (by simp [originInstance])).1⟩
  · intro f hf
    simp only [List.mem_cons, List.not_mem_nil, or_false] at hf
    subst hf
    norm_num

/-- The four-color palette of `Ornaments.tsx` (hex components over 255):
iceBlue #4B9CD3, cyanBlue #0ea5e9, crystalWhite #f0f9ff, silver #e2e8f0. -/
noncomputable def palette : ℕ → V3
  | 0 => ⟨75 / 255, 156 / 255, 211 / 255⟩
  | 1 => ⟨14 / 255, 165 / 255, 233 / 255⟩
  | 2 => ⟨240 / 255, 249 / 255, 255 / 255⟩
  | _ => ⟨226 / 255, 232 / 255, 240 / 255⟩

/-- One iteration of the ornament generator loop (`Ornaments.tsx` lines
46-89).  `v` is this iteration's `Math.random()` draws in order of role:
`v 0` category, `v 1` yNorm base, `v 2` theta jitter, `v 3` radius jitter,
`v 4` chaos radius, `v 5` chaos theta, `v 6` chaos phi, `v 7` scale jitter
(not drawn for lights), `v 8` palette pick (not drawn for lights), `v 9`
speed, `v 10`/`v 11` rotation offsets.  Draws the source code skips are
simply unused here; since every draw is an arbitrary `[0,1)` value this
relabelling loses no generality. -/
noncomputable def genInstance (v : ℕ → ℝ) : InstanceData :=
  let rnd := v 0
  let type := ornamentTypeOf rnd
  let yNorm := v 1 ^ (2.5 : ℝ)
  let y := yNorm * 11 + 0.5
  let rScale := 1 - yNorm
  let theta := y * 10 + v 2 * π * 2
  let r := 4.5 * rScale + v 3 * 0.5
  let targetPos : V3 := ⟨r * Real.cos theta, y, r * Real.sin theta⟩
  let cR := 15 + v 4 * 15
  let cTheta := v 5 * π * 2
  let cPhi := Real.arccos (2 * v 6 - 1)
  let chaosPos : V3 := ⟨cR * Real.sin cPhi * Real.cos cTheta,
    cR * Real.sin cPhi * Real.sin cTheta + 5, cR * Real.cos cPhi⟩
  let scl : ℝ := if type = .light then 0.15 else 0.2 + v 7 * 0.25
  let color : V3 := if type = .light then ⟨224 / 255, 242 / 255, 254 / 255⟩
    else palette (Int.toNat ⌊v 8 * 4⌋)
  ⟨chaosPos, targetPos, type, color, scl, 0.5 + v 9 * 1.5,
   ⟨v 10 * π, v 11 * π, 0⟩⟩

/-- The full list of generated ornament instances; `rho i` is the i-th
iteration's draw function. -/
noncomputable def ornamentsData (rho : ℕ → ℕ → ℝ) (count : ℕ) : List InstanceData :=
  (List.range count).map (fun i => genInstance (rho i))

/-- The `_balls` array: instances pushed per iteration when the category is
ball, i.e. the order-preserving filter of the generated list. -/
noncomputable def ballsData (rho : ℕ → ℕ → ℝ) (count : ℕ) : List InstanceData :=
  (ornamentsData rho count).filter (fun d => decide (d.type = OrnamentType.ball))

/-- The `_gifts` array. -/
noncomputable def giftsData (rho : ℕ → ℕ → ℝ) (count : ℕ) : List InstanceData :=
  (ornamentsData rho count).filter (fun d => decide (d.type = OrnamentType.gift))

/-- The `_lights` array. -/
noncomputable def lightsData (rho : ℕ → ℕ → ℝ) (count : ℕ) : List InstanceData :=
  (ornamentsData rho count).filter (fun d => decide (d.type = OrnamentType.light))

theorem dist_spherical (R phi theta off : ℝ) (hR : 0 ≤ R) :
    distanceTo ⟨R * Real.sin phi * Real.cos theta,
      R * Real.sin phi * Real.sin theta + off, R * Real.cos phi⟩ ⟨0, off, 0⟩ = R := by
  unfold distanceTo
  dsimp only
  have hs1 := Real.sin_sq_add_cos_sq theta
  have hs2 := Real.sin_sq_add_cos_sq phi
  rw [show (R * Real.sin phi * Real.cos theta - 0) ^ 2
      + (R * Real.sin phi * Real.sin theta + off - off) ^ 2
      + (R * Real.cos phi - 0) ^ 2 = R ^ 2 from by
    linear_combination (R ^ 2 * Real.sin phi ^ 2) * hs1 + R ^ 2 * hs2]
  exact Real.sqrt_sq hR

theorem foliageChaos_dist (u : ℕ → ℝ) (i : ℕ) (h0 : 0 ≤ u (4 * i)) (h1 : u (4 * i) < 1) :
    distanceTo (foliageChaos u i) ⟨0, 5, 0⟩ ≤ 25 := by
  have hr0 : 0 ≤ cbrt (u (4 * i)) := Real.rpow_nonneg h0 _
  have hr1 : cbrt (u (4 * i)) ≤ 1 := Real.rpow_le_one h0 (le_of_lt h1) (by norm_num)
  have hcp : foliageChaos u i
      = ⟨25 * cbrt (u (4 * i)) * Real.sin (Real.arccos (2 * u (4 * i + 2) - 1))
            * Real.cos (u (4 * i + 1) * 2 * π),
         25 * cbrt (u (4 * i)) * Real.sin (Real.arccos (2 * u (4 * i + 2) - 1))
            * Real.sin (u (4 * i + 1) * 2 * π) + 5,
         25 * cbrt (u (4 * i)) * Real.cos (Real.arccos (2 * u (4 * i + 2) - 1))⟩ := rfl
  rw [hcp, dist_spherical _ _ _ _ (by nlinarith)]
  nlinarith

theorem genInstance_chaosPos_dist (v : ℕ → ℝ) (h0 : 0 ≤ v 4) (h1 : v 4 < 1) :
    distanceTo (genInstance v).chaosPos ⟨0, 5, 0⟩ ≤ 30 := by
  have hcp : (genInstance v).chaosPos
      = ⟨(15 + v 4 * 15) * Real.sin (Real.arccos (2 * v 6 - 1)) * Real.cos (v 5 * π * 2),
         (15 + v 4 * 15) * Real.sin (Real.arccos (2 * v 6 - 1)) * Real.sin (v 5 * π * 2) + 5,
         (15 + v 4 * 15) * Real.cos (Real.arccos (2 * v 6 - 1))⟩ := rfl
  rw [hcp, dist_spherical _ _ _ _ (by nlinarith)]
  nlinarith

theorem genInstance_targetPos_y (v : ℕ → ℝ) (h0 : 0 ≤ v 1) (h1 : v 1 < 1) :
    0.5 ≤ (genInstance v).targetPos.y ∧ (genInstance v).targetPos.y < 11.5 := by
  have hy : (genInstance v).targetPos.y = v 1 ^ (2.5 : ℝ) * 11 + 0.5 := rfl
  have hr0 : 0 ≤ v 1 ^ (2.5 : ℝ) := Real.rpow_nonneg h0 _
  have hr1 : v 1 ^ (2.5 : ℝ) < 1 := Real.rpow_lt_one h0 h1 (by norm_num)
  rw [hy]
  constructor <;> nlinarith

theorem length_filter_partition (l : List InstanceData) :
    (l.filter (fun d => decide (d.type = OrnamentType.ball))).length
      + (l.filter (fun d => decide (d.type = OrnamentType.gift))).length
      + (l.filter (fun d => decide (d.type = OrnamentType.light))).length
      = l.length := by
  induction l with
  | nil => rfl
  | cons d l ih =>
    cases h : d.type <;> simp [List.filter_cons, h] <;> omega

/-- C8: for every count N the generators produce exactly N foliage entries
(chaos, target, random scalar) and exactly N ornament instances partitioned
across the three category arrays, and, when every random draw is in `[0, 1)`,
each entry is within its documented range: foliage chaos within distance 25 of
the offset center `(0, 5, 0)`, ornament chaos within distance 30 of the same
offset center, foliage target height in `[0, 12)`, ornament target height in
`[0.5, 11.5)`, and each per-point random scalar in `[0, 1)`. -/
theorem c8_generator_counts_ranges :
    ∀ (u : ℕ → ℝ) (rho : ℕ → ℕ → ℝ) (count : ℕ),
      (∀ k, 0 ≤ u k ∧ u k < 1) →
      (∀ i j, 0 ≤ rho i j ∧ rho i j < 1) →
      (foliageChaosList u count).length = count
      ∧ (foliageTargetList count).length = count
      ∧ (foliageRandomList u count).length = count
      ∧ (∀ p ∈ foliageChaosList u count, distanceTo p ⟨0, 5, 0⟩ ≤ 25)
      ∧ (∀ i < count, 0 ≤ (foliageTarget count i).y ∧ (foliageTarget count i).y < 12)
      ∧ (∀ r ∈ foliageRandomList u count, 0 ≤ r ∧ r < 1)
      ∧ (ornamentsData rho count).length = count
      ∧ (ballsData rho count).length + (giftsData rho count).length
          + (lightsData rho count).length = count
      ∧ (∀ d ∈ ornamentsData rho count,
          distanceTo d.chaosPos ⟨0, 5, 0⟩ ≤ 30
          ∧ 0.5 ≤ d.targetPos.y ∧ d.targetPos.y < 11.5) := by
  intro u rho count hu hrho
  refine ⟨by simp [foliageChaosList], by simp [foliageTargetList],
    by simp [foliageRandomList], ?_, ?_, ?_, by simp [ornamentsData], ?_, ?_⟩
  · intro p hp
    simp only [foliageChaosList, List.mem_map, List.mem_range] at hp
    obtain ⟨i, _, rfl⟩ := hp
    exact foliageChaos_dist u i (hu _).1 (hu _).2
  · intro i hi
    have hcount : 0 < count := Nat.lt_of_le_of_lt (Nat.zero_le i) hi
    have hc : (0:ℝ) < (count:ℝ) := by exact_mod_cast hcount
    have hy : (foliageTarget count i).y = (i : ℝ) / (count : ℝ) * 12 := rfl
    have hfrac0 : 0 ≤ (i : ℝ) / (count : ℝ) :=
      div_nonneg (Nat.cast_nonneg i) (le_of_lt hc)
    have hfrac1 : (i : ℝ) / (count : ℝ) < 1 :=
      (div_lt_one hc).mpr (by exact_mod_cast hi)
    rw [hy]
    constructor <;> nlinarith
  · intro r hr
    simp only [foliageRandomList, List.mem_map, List.mem_range] at hr
    obtain ⟨i, _, rfl⟩ := hr
    exact hu _
  · rw [ballsData, giftsData, lightsData, length_filter_partition]
    simp [ornamentsData]
  · intro d hd
    simp only [ornamentsData, List.mem_map, List.mem_range] at hd
    obtain ⟨i, _, rfl⟩ := hd
    exact ⟨genInstance_chaosPos_dist (rho i) (hrho i 4).1 (hrho i 4).2,
      genInstance_targetPos_y (rho i) (hrho i 1).1 (hrho i 1).2⟩

/-- Witness for C8 with the constant-zero draw streams and count 1. -/
theorem c8_generator_counts_ranges_witness :
    (foliageChaosList (fun _ => 0) 1).length = 1
    ∧ (ornamentsData (fun _ _ => 0) 1).length = 1 := by
  have h := c8_generator_counts_ranges (fun _ => 0) (fun _ _ => 0) 1
    (fun k => by norm_num) (fun i j => by norm_num)
  exact ⟨h.1, h.2.2.2.2.2.2.1⟩

/-- The GPU-visible state of one instanced mesh: the per-instance transform
buffer, the per-instance color buffer (written once at mount), and the
`instanceMatrix.needsUpdate` flag.  An absent (not yet mounted) handle is
`none`, mirroring `ref.current === null`. -/
structure MeshBuf where
  matrices : List Transform
  colors : List V3
  needsUpdate : Bool

/-- The per-frame `updateMesh` closure of `Ornaments.tsx` lines 115-147:
`if (!ref.current) return;` then update every instance transform in place and
raise the needsUpdate flag when the loop ran; colors are never touched. -/
noncomputable def updateMesh (data : List InstanceData) (formed : Bool)
    (time delta : ℝ) : Option MeshBuf → Option MeshBuf
  | none => none
  | some b =>
    some ⟨List.zipWith (fun d t => updateInstance d formed time delta t) data b.matrices,
      b.colors, if data.isEmpty then b.needsUpdate else true⟩

/-- C9: when the instanced-mesh handle is absent (`null` ref) the per-frame
mesh update is skipped entirely: the update returns the component state
unchanged, so no instance transform, color, or flag is modified. -/
theorem c9_null_handle_skip :
    ∀ (data : List InstanceData) (formed : Bool) (time delta : ℝ)
      (buf : Option MeshBuf), buf = none →
      updateMesh data formed time delta buf = buf := by
  intro data formed time delta buf h
  subst h
  rfl

/-- Witness for C9 at a concrete frame with an absent handle. -/
theorem c9_null_handle_skip_witness :
    updateMesh [originInstance] true 0 (1/60) none = none :=
  c9_null_handle_skip [originInstance] true 0 (1/60) none rfl

end ChristmasTree
